import Mathlib

/-!
Verification of the berry-sahayak session coordination core.

The definitions below are a shallow embedding of the educator-side process
(src/unnamed/part_001, the variant spanning the middle of the file: globals,
`calculateStatistics`, the `ws.on('message')` dispatch, the `/doubt` and
`/process` commands, `processAndDisplayDoubts`, `createFallbackDoubts`) and
of the learner client (src/client.js).  JavaScript numbers are modelled as
`Int`/`ℚ`; a field that may be absent on a wire frame is an `Option`;
JavaScript's `x || y` on numbers, `String.fromCharCode` (with its ToUint16
wrap) and `Math.round` are reproduced explicitly.  The calls into the
external Ollama service (an asynchronous HTTP request with a command-line
fallback) are modelled by passing the outcome of that call as an explicit
parameter, since the service is outside the repository.
-/

namespace BerrySahayak

/-- ECMAScript ToUint16: the integer is taken modulo 2^16 (result in
`[0, 65536)`), as `String.fromCharCode` does to its argument. -/
def toUint16 (i : Int) : Nat := (i % 65536).toNat

/-- `String.fromCharCode(code)` for a single numeric argument.  Codes that are
not valid Lean scalar values (lone surrogates) are collapsed by `Char.ofNat`
to `'\0'`; they compare unequal to `'A'..'D'` exactly as in JavaScript, which
is all the embedded code observes. -/
def jsFromCharCode (code : Int) : Char := Char.ofNat (toUint16 code)

/-- `String.fromCharCode(65 + a.answerIndex)`: a missing `answerIndex` gives
`65 + undefined = NaN`, and `ToUint16 NaN = 0`, hence `'\0'`. -/
def jsCharOfIndex (idx : Option Int) : Char :=
  match idx with
  | none => Char.ofNat 0
  | some i => jsFromCharCode (65 + i)

/-- JavaScript `x || d` where `x` is a possibly-missing number: `undefined`
and `0` are falsy. -/
def jsOrInt (o : Option Int) (d : Int) : Int :=
  match o with
  | none => d
  | some v => if v = 0 then d else v

/-- JavaScript `x || d` where `x` is a number that is always present. -/
def jsOrIntV (x d : Int) : Int := if x = 0 then d else x

/-- JavaScript `Math.round` on an exact rational: half-way cases round toward
positive infinity. -/
def jsRound (q : ℚ) : ℤ := ⌊q + 1/2⌋

/-- `array[i]` on a string array: out-of-range indexing yields `undefined`,
which the template literals of the embedded code render as `"undefined"`. -/
def jsIndexGetD (l : List String) (i : Int) : String :=
  if 0 ≤ i then l.getD i.toNat "undefined" else "undefined"

/-- `text.substring(0, 50) + (text.length > 50 ? '...' : '')`. -/
def jsTruncate50 (t : String) : String :=
  t.take 50 ++ (if 50 < t.length then "..." else "")

/-- A quiz as held in `currentQuiz`: `{question, options, correct, startTime}`.
`correct` is whatever number the generator produced, so it is a plain `Int`. -/
structure Quiz where
  question : String
  options : List String
  correct : Int
  startTime : Int
deriving Repr, DecidableEq

/-- An entry of `quizStatistics.answers` as pushed by the `quiz_answer`
handler. -/
structure AnswerRecord where
  answer : String
  answerIndex : Option Int
  isCorrect : Bool
  responseTime : Int
  timestamp : Int
  hintsUsed : Int
deriving Repr, DecidableEq

/-- The `quizStatistics` global: `{answers, hintsUsed, startTime}`. -/
structure QuizStats where
  answers : List AnswerRecord
  hintsUsed : Int
  startTime : Int
deriving Repr, DecidableEq

/-- The `optionCounts` object `{A, B, C, D}` of `calculateStatistics`. -/
structure OptionCounts where
  A : Nat
  B : Nat
  C : Nat
  D : Nat
deriving Repr, DecidableEq

def emptyCounts : OptionCounts := ⟨0, 0, 0, 0⟩

/-- The record returned by `calculateStatistics`. -/
structure StatisticsSnapshot where
  totalAnswered : Nat
  averageScore : ℚ
  avgResponseTime : ℚ
  hintsUsed : Int
  optionCounts : OptionCounts
deriving Repr, DecidableEq

/-- One step of the `answers.forEach` loop that fills `optionCounts`:
`const option = String.fromCharCode(65 + a.answerIndex);` followed by
`if (optionCounts.hasOwnProperty(option)) optionCounts[option]++;`. -/
def countOption (cs : OptionCounts) (a : AnswerRecord) : OptionCounts :=
  let c := jsCharOfIndex a.answerIndex
  if c = 'A' then { cs with A := cs.A + 1 }
  else if c = 'B' then { cs with B := cs.B + 1 }
  else if c = 'C' then { cs with C := cs.C + 1 }
  else if c = 'D' then { cs with D := cs.D + 1 }
  else cs

/-- `calculateStatistics()` reading the `currentQuiz` and `quizStatistics`
globals (src/unnamed/part_001, lines 563-610). -/
def calculateStatistics (currentQuiz : Option Quiz) (quizStatistics : Option QuizStats) :
    StatisticsSnapshot :=
  match currentQuiz, quizStatistics with
  | some _, some st =>
    if st.answers.isEmpty then
      { totalAnswered := 0, averageScore := 0, avgResponseTime := 0,
        hintsUsed := st.hintsUsed, optionCounts := emptyCounts }
    else
      let answers := st.answers
      let totalAnswered := answers.length
      let correctCount := (answers.filter (fun a => a.isCorrect)).length
      let averageScore : ℚ :=
        if 0 < totalAnswered then ((correctCount : ℚ) / (totalAnswered : ℚ)) * 100 else 0
      let responseTimes := (answers.map (fun a => a.responseTime)).filter (fun t => 0 < t)
      let avgResponseTime : ℚ :=
        if 0 < responseTimes.length then
          ((responseTimes.sum : ℚ)) / (responseTimes.length : ℚ)
        else 0
      { totalAnswered := totalAnswered,
        averageScore := ((jsRound (averageScore * 10) : ℚ)) / 10,
        avgResponseTime := ((jsRound (avgResponseTime / 1000 * 10) : ℚ)) / 10,
        hintsUsed := st.hintsUsed,
        optionCounts := answers.foldl countOption emptyCounts }
  | _, _ =>
      { totalAnswered := 0, averageScore := 0, avgResponseTime := 0,
        hintsUsed := 0, optionCounts := emptyCounts }

/-- An entry of the `doubtCollection` global: `{text, timestamp}`. -/
structure Doubt where
  text : String
  timestamp : Int
deriving Repr, DecidableEq

/-- A `{summary, count, details}` entry as produced by doubt processing. -/
structure DoubtSummary where
  summary : String
  count : Nat
  details : String
deriving Repr, DecidableEq

/-- Character-wise ASCII lowercasing, the effect of `toLowerCase()` on the
embedded code's inputs (kernel-computable, unlike `String.toLower`'s
byte-position recursion). -/
def jsToLower (t : String) : String := String.mk (t.data.map Char.toLower)

/-- The bucket key of `createFallbackDoubts`:
`d.text.substring(0, 30).toLowerCase()`. -/
def fallbackKey (t : String) : String := jsToLower (t.take 30)

/-- A value of the `grouped` object: `{text, count}`. -/
structure GroupEntry where
  text : String
  count : Nat
deriving Repr, DecidableEq

/-- One step of the `doubts.forEach` loop of `createFallbackDoubts`: the
`grouped` object is an insertion-ordered association list from bucket key to
`{text, count}`; a fresh key stores the representative text with count 0 and
the count is incremented unconditionally. -/
def addToGroup (g : List (String × GroupEntry)) (d : Doubt) : List (String × GroupEntry) :=
  let key := fallbackKey d.text
  if g.any (fun p => p.1 == key) then
    g.map (fun p => if p.1 == key then (p.1, { p.2 with count := p.2.count + 1 }) else p)
  else
    g ++ [(key, { text := d.text, count := 1 })]

/-- The filled `grouped` object of `createFallbackDoubts`. -/
def groupDoubts (doubts : List Doubt) : List (String × GroupEntry) :=
  doubts.foldl addToGroup []


/-- The final `sorted.map((item) => ...)` projection of `createFallbackDoubts`. -/
def mkFallbackEntry (item : GroupEntry) : DoubtSummary :=
  { summary := jsTruncate50 item.text, count := item.count, details := item.text }

/-- `Object.values(grouped).sort((a, b) => b.count - a.count)`: the bucket
values in insertion order, stably sorted by descending count.  JavaScript's
`Array.sort` is required to be stable; it is modelled by the (stable,
structurally recursive) insertion sort under the comparator's order
`b.count ≤ a.count`. -/
def sortedBuckets (doubts : List Doubt) : List GroupEntry :=
  List.insertionSort (fun a b => b.count ≤ a.count) ((groupDoubts doubts).map Prod.snd)

/-- `createFallbackDoubts(doubts)` (src/unnamed/part_001, lines 1952-1974):
group by the lowercase 30-character prefix, sort the bucket values by
descending count, take the first 3 and format them.  (The sibling variant at
lines 859-928 differs only in rendering `summary` through a
question-formatting helper instead of 50-character truncation.) -/
def createFallbackDoubts (doubts : List Doubt) : List DoubtSummary :=
  if doubts.isEmpty then []
  else ((sortedBuckets doubts).take 3).map mkFallbackEntry

/-- How many collected doubts fall in the bucket keyed `k`. -/
def bucketCountIn (doubts : List Doubt) (k : String) : Nat :=
  doubts.countP (fun d => fallbackKey d.text == k)

/-- What the `grouped` association list satisfies after the doubts `pre`
have been folded in: every entry is keyed by its representative's bucket key
and counts exactly the matching doubts, every processed doubt has a bucket,
and keys are never duplicated. -/
def GroupedInv (pre : List Doubt) (g : List (String × GroupEntry)) : Prop :=
  (∀ p ∈ g, p.1 = fallbackKey p.2.text ∧ p.2.count = bucketCountIn pre p.1 ∧
    ∃ d ∈ pre, p.2.text = d.text) ∧
  (∀ d ∈ pre, ∃ p ∈ g, p.1 = fallbackKey d.text) ∧
  (g.map Prod.fst).Nodup

/-- Resolution of the asynchronous `processDoubts` call (HTTP request to the
local Ollama service, falling back to a command-line invocation).  The
external service is outside the repository, so the outcome of contacting it
is passed explicitly; `success` carries the already-normalized `topDoubts`
list the service path resolved with. -/
inductive SummarizerOutcome where
  /-- a service path resolved with a usable parsed `topDoubts` list -/
  | success (summaries : List DoubtSummary)
  /-- HTTP 200, response JSON parsed, but no braced JSON object in the text -/
  | httpNoJsonMatch
  /-- the `ollama run` child process exited with an error -/
  | cliExecError
  /-- command-line output contained no braced JSON object -/
  | cliNoJsonMatch
  /-- command-line output failed to parse as JSON -/
  | cliParseError
  /-- command-line JSON parsed but the processed list was empty -/
  | cliEmptyParsed
deriving Repr, DecidableEq

/-- Every outcome except a usable service response. -/
def SummarizerOutcome.isFailure : SummarizerOutcome → Bool
  | .success _ => false
  | _ => true

/-- The value `processDoubts(doubts)` resolves with, given the outcome of the
external call: an empty collection resolves `[]` before any call is made; a
usable service response is returned as-is; every failure resolves
`createFallbackDoubts(doubts)`. -/
def processDoubtsResult (doubts : List Doubt) : SummarizerOutcome → List DoubtSummary :=
  fun o =>
    if doubts.isEmpty then []
    else
      match o with
      | .success summaries => summaries
      | .httpNoJsonMatch => createFallbackDoubts doubts
      | .cliExecError => createFallbackDoubts doubts
      | .cliNoJsonMatch => createFallbackDoubts doubts
      | .cliParseError => createFallbackDoubts doubts
      | .cliEmptyParsed => createFallbackDoubts doubts

/-- The single learner socket: only its open/closed flag is observable to the
embedded code (`client.readyState === WebSocket.OPEN`). -/
structure Conn where
  isOpen : Bool
deriving Repr, DecidableEq

/-- Which callback the pending `doubtCollectionTimeout` timer would run: the
one armed by the `/doubt` command or the one re-armed by a
`doubt_submission`. -/
inductive TimerKind where
  | openTimer
  | submitTimer
deriving Repr, DecidableEq

/-- A frame the educator writes to the learner socket. -/
inductive OutFrame where
  | chat (text : String)
  | quizFrame (q : Quiz)
  | quizFeedback (correct : Bool) (message : String)
  | doubtSignal (active : Bool)
deriving Repr, DecidableEq

/-- An entry of the educator's `messageList` (text plus sender tag). -/
structure LogEntry where
  text : String
  mtype : String
deriving Repr, DecidableEq

/-- The educator process's mutable globals.  `sent` records every frame
actually written to the learner socket and `processedBatches` every
collection handed to `processDoubts` — observation logs for the proofs, not
state the code branches on. -/
structure OpState where
  client : Option Conn
  status : String
  messageList : List LogEntry
  currentQuiz : Option Quiz
  quizStatistics : Option QuizStats
  showStatistics : Bool
  isDoubtActive : Bool
  doubtCollection : List Doubt
  topDoubts : Option (List DoubtSummary)
  showTopDoubts : Bool
  isProcessingDoubts : Bool
  doubtCollectionTimeout : Option TimerKind
  sent : List OutFrame
  processedBatches : List (List Doubt)
deriving Repr, DecidableEq

/-- `addMessage(text, type)`. -/
def addMsg (s : OpState) (text mtype : String) : OpState :=
  { s with messageList := s.messageList ++ [⟨text, mtype⟩] }

/-- The guarded send pattern `client && client.readyState === WebSocket.OPEN
&& client.send(...)`: delivers the frame and reports success only when an
open socket is installed. -/
def sendFrame (s : OpState) (f : OutFrame) : Bool × OpState :=
  match s.client with
  | some c => if c.isOpen then (true, { s with sent := s.sent ++ [f] }) else (false, s)
  | none => (false, s)

/-- `wss.on('connection')`: install the socket and mark the session
connected. -/
def handleConnection (s : OpState) (c : Conn) : OpState :=
  let s := { s with client := some c, status := "Connected" }
  addMsg s "Learner connected" "system"

/-- `ws.on('close')`: mark the session disconnected and drop the socket
reference; nothing else is touched. -/
def handleClose (s : OpState) : OpState :=
  let s := { s with status := "Disconnected" }
  let s := addMsg s "Learner disconnected" "system"
  { s with client := none }

/-- `ws.on('error')`: the handler only logs the error text. -/
def handleError (s : OpState) (emsg : String) : OpState :=
  addMsg s ("Error: " ++ emsg) "system"

/-- The payload of a `doubt_submission` frame; the peer may omit the
timestamp. -/
structure DoubtFrame where
  text : String
  timestamp : Option Int
deriving Repr, DecidableEq

/-- The `doubt_submission` branch of the educator's `ws.on('message')`
handler (src/unnamed/part_001, lines 1405-1429): reject while collection is
inactive; otherwise append `{text, timestamp: doubt.timestamp || Date.now()}`
and re-arm the two-minute debounce timer. -/
def handleDoubtSubmission (s : OpState) (d : DoubtFrame) (now : Int) : OpState :=
  if !s.isDoubtActive then
    addMsg s "Doubt collection not active. Teacher must send /doubt command first." "system"
  else
    let s := { s with doubtCollection :=
                        s.doubtCollection ++ [⟨d.text, jsOrInt d.timestamp now⟩] }
    let s := addMsg s ("Doubt received: " ++ jsTruncate50 d.text) "system"
    { s with doubtCollectionTimeout := some .submitTimer }

/-- The payload of a `quiz_answer` frame.  `answerIndex`, `quizStartTime` and
`hintsUsed` are numbers the peer may omit. -/
structure AnswerFrame where
  question : String
  answer : String
  answerIndex : Option Int
  selectedOption : String
  timestamp : Int
  quizStartTime : Option Int
  hintsUsed : Option Int
deriving Repr, DecidableEq

/-- The `quiz_feedback` message text: `'Correct answer!'` on success,
otherwise the correct letter (`String.fromCharCode(65 + correct)`) and the
correct option's text. -/
def feedbackMessage (q : Quiz) (isCorrect : Bool) : String :=
  if isCorrect then "Correct answer!"
  else
    "Wrong answer. The correct answer is "
      ++ String.singleton (jsFromCharCode (65 + q.correct)) ++ ". "
      ++ jsIndexGetD q.options q.correct

/-- The `quiz_answer` branch of the educator's `ws.on('message')` handler
(src/unnamed/part_001, lines 1430-1473): with no active quiz the frame is
rejected with a notice; otherwise `isCorrect` is the strict equality
`answer.answerIndex === currentQuiz.correct`, the response time is
`answer.timestamp - (answer.quizStartTime || quizStatistics.startTime)`, the
record is appended, and a `quiz_feedback` frame is written back to the
answering socket. -/
def handleQuizAnswer (s : OpState) (ans : AnswerFrame) : OpState :=
  match s.currentQuiz, s.quizStatistics with
  | some q, some st =>
    let isCorrect : Bool := ans.answerIndex = some q.correct
    let responseTime := ans.timestamp - jsOrInt ans.quizStartTime st.startTime
    let record : AnswerRecord :=
      { answer := ans.answer, answerIndex := ans.answerIndex, isCorrect := isCorrect,
        responseTime := responseTime, timestamp := ans.timestamp,
        hintsUsed := jsOrInt ans.hintsUsed 0 }
    let s := { s with quizStatistics := some { st with answers := st.answers ++ [record] } }
    let s := { s with sent := s.sent ++ [.quizFeedback isCorrect (feedbackMessage q isCorrect)] }
    addMsg s ("Quiz Answer: " ++ ans.answer ++ ". " ++ ans.selectedOption ++ " - "
      ++ (if isCorrect then "CORRECT" else "WRONG")) "learner"
  | _, _ => addMsg s "No active quiz" "system"

/-- The `/doubt` command (src/unnamed/part_001, lines 1289-1323): requires an
open learner socket; resets the collection, marks it active, sends
`doubt{active:true}` and arms the two-minute timer. -/
def openDoubtWindow (s : OpState) : OpState :=
  match s.client with
  | some c =>
    if c.isOpen then
      let s := { s with isDoubtActive := true, doubtCollection := [], topDoubts := none,
                        isProcessingDoubts := false, showTopDoubts := true }
      let s := { s with sent := s.sent ++ [.doubtSignal true] }
      let s := addMsg s "Doubt collection started. Waiting for learner submissions... Type /process to process immediately." "system"
      { s with doubtCollectionTimeout := some .openTimer }
    else addMsg s "No learner connected" "system"
  | none => addMsg s "No learner connected" "system"

/-- `processAndDisplayDoubts()` (src/unnamed/part_001, lines 1507-1541),
atomic up to the resolution of `processDoubts`: with an empty collection it
only clears `active` and hides the panel; otherwise it clears `active`,
hands the whole collection to `processDoubts`, stores the result and clears
the timer.  (`processDoubts` always resolves, so the catch branch is dead.) -/
def processAndDisplayDoubts (s : OpState) (o : SummarizerOutcome) : OpState :=
  if s.doubtCollection.isEmpty then
    { s with isDoubtActive := false, showTopDoubts := false }
  else
    let batch := s.doubtCollection
    let s := { s with isDoubtActive := false, isProcessingDoubts := true,
                      showTopDoubts := true, topDoubts := none }
    let s := addMsg s ("Processing " ++ toString batch.length ++ " doubt(s)...") "system"
    let processed := processDoubtsResult batch o
    let s := { s with processedBatches := s.processedBatches ++ [batch],
                      topDoubts := some processed, isProcessingDoubts := false }
    let s := addMsg s ("Top " ++ toString (min 3 processed.length)
                        ++ " critical doubts identified") "system"
    { s with doubtCollectionTimeout := none }

/-- The `/process` command (src/unnamed/part_001, lines 1263-1286): rejected
with a notice when collection is inactive, and also — returning early, with
the window still active and the timer still armed — when nothing has been
collected; otherwise it cancels the timer and flushes immediately. -/
def forceProcess (s : OpState) (o : SummarizerOutcome) : OpState :=
  if !s.isDoubtActive then
    addMsg s "No active doubt collection. Use /doubt to start collecting doubts first." "system"
  else if s.doubtCollection.isEmpty then
    addMsg s "No doubts collected yet. Waiting for learner submissions..." "system"
  else
    let s := { s with doubtCollectionTimeout := none }
    let s := addMsg s ("Processing " ++ toString s.doubtCollection.length
                        ++ " doubt(s) immediately...") "system"
    processAndDisplayDoubts s o

/-- Expiry of the pending `doubtCollectionTimeout`, if any.  The `/doubt`
callback falls back to deactivating an empty window with a notice; the
re-armed submission callback does nothing when the collection is empty.  A
cancelled timer (field `none`) never fires. -/
def fireTimer (s : OpState) (o : SummarizerOutcome) : OpState :=
  match s.doubtCollectionTimeout with
  | none => s
  | some k =>
    let s := { s with doubtCollectionTimeout := none }
    match k with
    | .openTimer =>
      if s.doubtCollection.isEmpty then
        let s := addMsg s "No doubts received from learners" "system"
        { s with isDoubtActive := false }
      else processAndDisplayDoubts s o
    | .submitTimer =>
      if s.doubtCollection.isEmpty then s
      else processAndDisplayDoubts s o

/-- `input.charCodeAt(0)` for the single-letter answer inputs. -/
def jsCharCodeAt0 (t : String) : Int := ((t.toList.headD (Char.ofNat 0)).toNat : Int)

/-- `{correct, message}` as carried by a `quiz_feedback` frame. -/
structure Feedback where
  correct : Bool
  message : String
deriving Repr, DecidableEq

/-- A frame the learner writes to its socket. -/
inductive ClOutFrame where
  | chatMsg (text : String)
  | quizAnswer (ans : AnswerFrame)
deriving Repr, DecidableEq

/-- The learner client's mutable globals (src/client.js); `sentFrames` logs
every frame written to the socket. -/
structure ClState where
  ws : Option Conn
  currentQuiz : Option Quiz
  answerFeedback : Option Feedback
  sentFrames : List ClOutFrame
  messages : List LogEntry
deriving Repr, DecidableEq

/-- `setAnswerFeedback(feedback)` (src/client.js, line 108).  The function is
defined in the source but no inbound-frame branch invokes it — the client's
`ws.on('message')` handles only `message` and `quiz` types. -/
def clientFeedbackArrived (s : ClState) (f : Feedback) : ClState :=
  { s with answerFeedback := some f }

/-- The quiz-answer branch of the learner's `rl.on('line')` handler
(src/client.js, lines 535-564), for an already-uppercased input with an
active quiz: a non-null `answerFeedback` suppresses the answer with a local
notice; otherwise the `quiz_answer` frame (with
`quizStartTime: currentQuiz.startTime || answerTime`) is sent when the socket
is open. -/
def clientAnswerLine (s : ClState) (inputUpper : String) (now : Int) : ClState :=
  match s.currentQuiz with
  | none => s
  | some q =>
    if inputUpper = "A" ∨ inputUpper = "B" ∨ inputUpper = "C" ∨ inputUpper = "D" then
      if s.answerFeedback.isSome then
        { s with messages := s.messages ++ [⟨"You have already answered this quiz", "system"⟩] }
      else
        let answerIndex : Int := jsCharCodeAt0 inputUpper - 65
        let selectedOption := jsIndexGetD q.options answerIndex
        match s.ws with
        | some c =>
          if c.isOpen then
            let frame : AnswerFrame :=
              { question := q.question, answer := inputUpper,
                answerIndex := some answerIndex, selectedOption := selectedOption,
                timestamp := now, quizStartTime := some (jsOrIntV q.startTime now),
                hintsUsed := none }
            let s := { s with sentFrames := s.sentFrames ++ [ClOutFrame.quizAnswer frame] }
            { s with messages := s.messages
                        ++ [(⟨"Answered: " ++ inputUpper ++ ". " ++ selectedOption, "you"⟩ : LogEntry)] }
          else
            { s with messages := s.messages ++ [⟨"Not connected to educator", "system"⟩] }
        | none =>
            { s with messages := s.messages ++ [⟨"Not connected to educator", "system"⟩] }
    else s

/-- A JSON value as produced by `JSON.parse`. -/
inductive JsValue where
  | null
  | bool (b : Bool)
  | num (q : ℚ)
  | str (s : String)
  | arr (elems : List JsValue)
  | obj (fields : List (String × JsValue))

/-- Own-property lookup on a parsed JSON object: with duplicate keys,
`JSON.parse` keeps the last occurrence. -/
def lookupLast (fields : List (String × JsValue)) (name : String) : Option JsValue :=
  match fields.reverse.find? (fun p => p.1 = name) with
  | some p => some p.2
  | none => none

/-- Property access `v.name`: throws (a TypeError, landing in the handler's
catch) when `v` is `null`; yields the field on an object and `undefined`
(`none`) on every other value. -/
def getField (v : JsValue) (name : String) : Except Unit (Option JsValue) :=
  match v with
  | .null => .error ()
  | .obj fields => .ok (lookupLast fields name)
  | _ => .ok none

/-- Strict equality `v === lit` between a possibly-undefined property and a
string literal. -/
def jsStrictEqStr (v : Option JsValue) (lit : String) : Bool :=
  match v with
  | some (.str t) => t = lit
  | _ => false

/-- What the learner's `ws.on('message')` handler does with one inbound
frame. -/
inductive RxAction where
  | chatMsg (payload : Option JsValue)
  | quizReceived (payload : Option JsValue)
  | legacy (text : String)
  | ignored

/-- `v.data` where `v` is known not to be `null` (the type test already
succeeded). -/
def dataField (v : JsValue) : Option JsValue :=
  match getField v "data" with
  | .ok d => d
  | .error _ => none

/-- The learner's `ws.on('message')` handler (src/client.js, lines 434-450)
as a decoder: `parsed` is the outcome of `JSON.parse(data.toString())`
(`none` when it threw).  A parse failure — or a TypeError from reading
`.type` off a parsed `null` — lands in the catch, which emits the raw frame
text verbatim as a legacy chat message; a parsed frame whose `type` is
neither `'message'` nor `'quiz'` falls through the if/else chain and is
dropped.  (The educator's handler at src/unnamed/part_001 lines 1400-1484
has the same try/catch shape around its four frame types.) -/
def clientDecode (raw : String) (parsed : Option JsValue) : RxAction :=
  match parsed with
  | none => .legacy raw
  | some v =>
    match getField v "type" with
    | .error _ => .legacy raw
    | .ok t =>
      if jsStrictEqStr t "message" then .chatMsg (dataField v)
      else if jsStrictEqStr t "quiz" then .quizReceived (dataField v)
      else .ignored

/-! Concrete fixtures used by witnesses and counterexamples. -/

/-- A four-option quiz with first option correct, started at time 100. -/
def exQuiz : Quiz :=
  { question := "Q", options := ["o1", "o2", "o3", "o4"], correct := 0, startTime := 100 }

/-- Recorded answers correct, wrong, correct. -/
def exStatsCWC : QuizStats :=
  { answers := [⟨"A", some 0, true, 1200, 1300, 0⟩, ⟨"B", some 1, false, 1500, 1600, 0⟩,
                ⟨"A", some 0, true, 1800, 1900, 0⟩],
    hintsUsed := 0, startTime := 100 }

/-- A single recorded answer whose `answerIndex` is 65536. -/
def exStatsWrap : QuizStats :=
  { answers := [⟨"?", some 65536, false, 0, 0, 0⟩], hintsUsed := 0, startTime := 100 }

/-- The educator's initial state: no socket, nothing active. -/
def initOp : OpState :=
  { client := none, status := "Waiting for connection...", messageList := [],
    currentQuiz := none, quizStatistics := none, showStatistics := false,
    isDoubtActive := false, doubtCollection := [], topDoubts := none,
    showTopDoubts := false, isProcessingDoubts := false, doubtCollectionTimeout := none,
    sent := [], processedBatches := [] }

/-- An educator state with an open learner socket installed. -/
def exConnected : OpState := { initOp with client := some ⟨true⟩, status := "Connected" }

/-- Quiz statistics freshly initialized at start time 100. -/
def exStats100 : QuizStats := { answers := [], hintsUsed := 0, startTime := 100 }

/-- A connected educator state with `exQuiz` active and no answers yet. -/
def exAnswering : OpState :=
  { exConnected with currentQuiz := some exQuiz, quizStatistics := some exStats100 }

/-- An answer frame carrying `quizStartTime = 50`, received at time 200 while
the quiz itself started at time 100. -/
def exAnsOverride : AnswerFrame :=
  { question := "Q", answer := "A", answerIndex := some 0, selectedOption := "o1",
    timestamp := 200, quizStartTime := some 50, hintsUsed := none }

/-- The learner client connected with `exQuiz` displayed and no feedback. -/
def initCl : ClState :=
  { ws := some ⟨true⟩, currentQuiz := some exQuiz, answerFeedback := none,
    sentFrames := [], messages := [] }

/-- Five doubts in four buckets: the two gravity doubts share their lowercase
30-character prefix. -/
def exDoubts : List Doubt :=
  [⟨"How does gravity work exactly in orbit", 1⟩,
   ⟨"how does gravity work exactly in space", 2⟩,
   ⟨"What is a black hole", 3⟩,
   ⟨"Why is the sky blue", 4⟩,
   ⟨"Can light escape a black hole", 5⟩]

/-! Helper lemmas. -/

lemma groupedInv_nil : GroupedInv [] [] := by
  refine ⟨?_, ?_, ?_⟩ <;> simp

lemma bucketCountIn_append (pre : List Doubt) (d : Doubt) (k : String) :
    bucketCountIn (pre ++ [d]) k =
      bucketCountIn pre k + (if fallbackKey d.text = k then 1 else 0) := by
  simp [bucketCountIn, List.countP_append, List.countP_cons]

lemma fst_addToGroup_update (p : String × GroupEntry) (k : String) :
    (if p.1 == k then (p.1, { p.2 with count := p.2.count + 1 }) else p).1 = p.1 := by
  split <;> rfl

lemma groupedInv_step (pre : List Doubt) (g : List (String × GroupEntry)) (d : Doubt)
    (h : GroupedInv pre g) : GroupedInv (pre ++ [d]) (addToGroup g d) := by
  obtain ⟨h1, h2, h3⟩ := h
  simp only [addToGroup]
  by_cases hmem : ∃ p ∈ g, p.1 = fallbackKey d.text
  · have hany : (g.any fun p => p.1 == fallbackKey d.text) = true := by
      simp only [List.any_eq_true, beq_iff_eq]
      exact hmem
    rw [if_pos hany]
    have hfst : (g.map fun p =>
        if p.1 == fallbackKey d.text then (p.1, { p.2 with count := p.2.count + 1 }) else p).map
          Prod.fst = g.map Prod.fst := by
      rw [List.map_map]
      apply List.map_congr_left
      intro p _
      exact fst_addToGroup_update p (fallbackKey d.text)
    refine ⟨?_, ?_, ?_⟩
    · intro p' hp'
      rw [List.mem_map] at hp'
      obtain ⟨p, hp, rfl⟩ := hp'
      obtain ⟨hk1, hk2, hk3⟩ := h1 p hp
      by_cases hk : p.1 = fallbackKey d.text
      · rw [if_pos (show (p.1 == fallbackKey d.text) = true by simpa using hk)]
        refine ⟨hk1, ?_, ?_⟩
        · rw [bucketCountIn_append, if_pos hk.symm, hk2]
        · obtain ⟨d', hd', he⟩ := hk3
          exact ⟨d', List.mem_append_left _ hd', he⟩
      · rw [if_neg (show ¬(p.1 == fallbackKey d.text) = true by simpa using hk)]
        refine ⟨hk1, ?_, ?_⟩
        · rw [bucketCountIn_append, if_neg (fun hc => hk hc.symm), hk2]
          omega
        · obtain ⟨d', hd', he⟩ := hk3
          exact ⟨d', List.mem_append_left _ hd', he⟩
    · intro d' hd'
      rw [List.mem_append] at hd'
      rcases hd' with hd' | hd'
      · obtain ⟨p, hp, hpk⟩ := h2 d' hd'
        exact ⟨_, List.mem_map_of_mem _ hp,
          (fst_addToGroup_update p (fallbackKey d.text)).trans hpk⟩
      · have hd : d' = d := by simpa using hd'
        obtain ⟨p, hp, hpk⟩ := hmem
        refine ⟨_, List.mem_map_of_mem _ hp, ?_⟩
        rw [fst_addToGroup_update p (fallbackKey d.text), hpk, hd]
    · rw [hfst]
      exact h3
  · have hany : (g.any fun p => p.1 == fallbackKey d.text) = false := by
      simp only [List.any_eq_false, beq_iff_eq]
      intro p hp hc
      exact hmem ⟨p, hp, hc⟩
    rw [if_neg (by simp [hany])]
    have hzero : bucketCountIn pre (fallbackKey d.text) = 0 := by
      rw [bucketCountIn, List.countP_eq_zero]
      intro d' hd'
      simp only [beq_iff_eq]
      intro hc
      obtain ⟨p, hp, hpk⟩ := h2 d' hd'
      exact hmem ⟨p, hp, hpk.trans hc⟩
    refine ⟨?_, ?_, ?_⟩
    · intro p' hp'
      rw [List.mem_append] at hp'
      rcases hp' with hp' | hp'
      · obtain ⟨hk1, hk2, hk3⟩ := h1 p' hp'
        have hne : fallbackKey d.text ≠ p'.1 := by
          intro hc
          exact hmem ⟨p', hp', hc.symm⟩
        refine ⟨hk1, ?_, ?_⟩
        · rw [bucketCountIn_append, if_neg hne, hk2]
          omega
        · obtain ⟨d', hd', he⟩ := hk3
          exact ⟨d', List.mem_append_left _ hd', he⟩
      · have hp'e : p' = (fallbackKey d.text, { text := d.text, count := 1 }) := by
          simpa using hp'
        rw [hp'e]
        refine ⟨rfl, ?_, ⟨d, List.mem_append_right _ (by simp), rfl⟩⟩
        rw [bucketCountIn_append, if_pos rfl, hzero]
    · intro d' hd'
      rw [List.mem_append] at hd'
      rcases hd' with hd' | hd'
      · obtain ⟨p, hp, hpk⟩ := h2 d' hd'
        exact ⟨p, List.mem_append_left _ hp, hpk⟩
      · have hd : d' = d := by simpa using hd'
        refine ⟨(fallbackKey d.text, { text := d.text, count := 1 }),
          List.mem_append_right _ (by simp), ?_⟩
        rw [hd]
    · rw [List.map_append]
      rw [List.nodup_append]
      refine ⟨h3, by simp, ?_⟩
      intro k hk hk2
      simp only [List.map_cons, List.map_nil, List.mem_cons, List.not_mem_nil, or_false] at hk2
      rw [List.mem_map] at hk
      obtain ⟨p, hp, hpk⟩ := hk
      exact hmem ⟨p, hp, by rw [hpk, hk2]⟩

lemma groupedInv_foldl (l : List Doubt) (pre : List Doubt) (g : List (String × GroupEntry))
    (h : GroupedInv pre g) : GroupedInv (pre ++ l) (l.foldl addToGroup g) := by
  induction l generalizing pre g with
  | nil => simpa using h
  | cons d t ih =>
    rw [List.foldl_cons, show pre ++ d :: t = (pre ++ [d]) ++ t by simp]
    exact ih (pre ++ [d]) (addToGroup g d) (groupedInv_step pre g d h)

lemma groupedInv_groupDoubts (doubts : List Doubt) :
    GroupedInv doubts (groupDoubts doubts) := by
  simpa [groupDoubts] using groupedInv_foldl doubts [] [] groupedInv_nil





lemma toNat_charOfNat (n : Nat) : (Char.ofNat n).toNat = if n.isValidChar then n else 0 := by
  unfold Char.ofNat
  split <;> rfl

lemma mem_letters_of_charOfNat (m : Nat)
    (h : Char.ofNat m ∈ (['A', 'B', 'C', 'D'] : List Char)) :
    m ∈ ([65, 66, 67, 68] : List Nat) := by
  simp only [List.mem_cons, List.not_mem_nil, or_false] at h ⊢
  have ht := toNat_charOfNat m
  by_cases hv : m.isValidChar
  · rw [if_pos hv] at ht
    rcases h with h | h | h | h <;> rw [h] at ht <;> simp_all
  · rw [if_neg hv] at ht
    rcases h with h | h | h | h <;> rw [h] at ht <;> simp_all

lemma foldl_countOption (l : List AnswerRecord) (cs : OptionCounts) :
    l.foldl countOption cs =
      ⟨cs.A + l.countP (fun a => jsCharOfIndex a.answerIndex == 'A'),
       cs.B + l.countP (fun a => jsCharOfIndex a.answerIndex == 'B'),
       cs.C + l.countP (fun a => jsCharOfIndex a.answerIndex == 'C'),
       cs.D + l.countP (fun a => jsCharOfIndex a.answerIndex == 'D')⟩ := by
  induction l generalizing cs with
  | nil => simp
  | cons a t ih =>
    rw [List.foldl_cons, ih]
    simp only [countOption, List.countP_cons, beq_iff_eq]
    split_ifs with h1 h2 h3 h4 <;> simp_all <;> omega

/-! Claim theorems. -/

/-- Claim C5: `averageScore` is `0` for an empty answer list and otherwise
`100 * correctCount / totalAnswered` rounded to one decimal (JavaScript
`Math.round(x*10)/10`); on answers correct, wrong, correct it is `66.7`. -/
theorem c5_average_score :
    (∀ (q : Quiz) (st : QuizStats),
      (calculateStatistics (some q) (some st)).averageScore =
        if st.answers.length = 0 then 0
        else (jsRound (100 * ((st.answers.countP (fun a => a.isCorrect) : ℚ) /
                (st.answers.length : ℚ)) * 10) : ℚ) / 10) ∧
    (calculateStatistics (some exQuiz) (some exStatsCWC)).averageScore = 667 / 10 := by
  constructor
  · intro q st
    by_cases h : st.answers.isEmpty
    · have h0 : st.answers.length = 0 := List.isEmpty_iff_length_eq_zero.mp h
      simp [calculateStatistics, h, h0]
    · have h0 : st.answers.length ≠ 0 := fun hc => h (List.isEmpty_iff_length_eq_zero.mpr hc)
      have hpos : 0 < st.answers.length := Nat.pos_of_ne_zero h0
      simp only [calculateStatistics, h, Bool.false_eq_true, if_false, if_neg h0, if_pos hpos]
      rw [List.countP_eq_length_filter]
      congr 2
      ring_nf
  · norm_num [calculateStatistics, exStatsCWC, exQuiz, jsRound, List.filter]

/-- Claim C8, amended: the statistics computation is total, and an answer is
counted in `optionDistribution` exactly when `String.fromCharCode(65 +
answerIndex)` — i.e. the character of code `(65 + answerIndex) mod 2^16` —
is a letter `A`–`D`: a missing index and any index whose wrapped code falls
outside `65..68` are ignored without error or spurious key, indices `0..3`
map to `A..D`, but an index congruent to `0..3` modulo `65536` is counted as
the corresponding letter rather than ignored. -/
theorem c8_option_distribution :
    (∀ (q : Quiz) (st : QuizStats),
      (calculateStatistics (some q) (some st)).optionCounts =
        ⟨st.answers.countP (fun a => jsCharOfIndex a.answerIndex == 'A'),
         st.answers.countP (fun a => jsCharOfIndex a.answerIndex == 'B'),
         st.answers.countP (fun a => jsCharOfIndex a.answerIndex == 'C'),
         st.answers.countP (fun a => jsCharOfIndex a.answerIndex == 'D')⟩) ∧
    jsCharOfIndex none ∉ (['A', 'B', 'C', 'D'] : List Char) ∧
    (∀ i : Int, toUint16 (65 + i) ∉ ([65, 66, 67, 68] : List Nat) →
      jsCharOfIndex (some i) ∉ (['A', 'B', 'C', 'D'] : List Char)) ∧
    jsCharOfIndex (some 0) = 'A' ∧ jsCharOfIndex (some 1) = 'B' ∧
    jsCharOfIndex (some 2) = 'C' ∧ jsCharOfIndex (some 3) = 'D' := by
  refine ⟨?_, by decide, ?_, by decide, by decide, by decide, by decide⟩
  · intro q st
    by_cases h : st.answers.isEmpty
    · have he : st.answers = [] := List.isEmpty_iff.mp h
      simp [calculateStatistics, h, he, emptyCounts]
    · simp only [calculateStatistics, h, Bool.false_eq_true, if_false]
      rw [foldl_countOption]
      simp [emptyCounts]
  · intro i hi hc
    exact hi (mem_letters_of_charOfNat _ hc)

/-- Claim C8 witness: index 70 gives character code 135, which is not a
letter `A`–`D`, so such an answer is ignored by the distribution. -/
theorem c8_option_distribution_witness :
    toUint16 (65 + 70) ∉ ([65, 66, 67, 68] : List Nat) ∧
    jsCharOfIndex (some 70) ∉ (['A', 'B', 'C', 'D'] : List Char) :=
  ⟨by decide, c8_option_distribution.2.2.1 70 (by decide)⟩

/-- Claim C8 counterexample: a recorded answer with `answerIndex = 65536` is
outside `0..3` yet is counted toward option `A` (the wrapped character code
is 65), so it is not ignored as the claim states. -/
theorem c8_claim_counterexample :
    (3 : Int) < 65536 ∧
    (calculateStatistics (some exQuiz) (some exStatsWrap)).optionCounts.A = 1 := by
  constructor
  · decide
  · decide

/-- Claim C1, amended: for a `quiz_answer` received while a quiz is active,
the appended record's response time is `ans.timestamp - (quizStartTimeOverride
|| quizStatistics.startTime)` — the override sent by the peer wins whenever it
is present and nonzero, with the quiz's own start time only as fallback; no
maximum is taken. -/
theorem c1_response_time (s : OpState) (q : Quiz) (st : QuizStats) (ans : AnswerFrame)
    (hq : s.currentQuiz = some q) (hst : s.quizStatistics = some st) :
    (handleQuizAnswer s ans).quizStatistics =
      some { st with answers := st.answers ++
        [{ answer := ans.answer, answerIndex := ans.answerIndex,
           isCorrect := decide (ans.answerIndex = some q.correct),
           responseTime := ans.timestamp - jsOrInt ans.quizStartTime st.startTime,
           timestamp := ans.timestamp, hintsUsed := jsOrInt ans.hintsUsed 0 }] } := by
  simp [handleQuizAnswer, hq, hst, addMsg]

/-- Claim C1 witness: quiz started at 100, override 50, answered at 200 —
the recorded response time is 150. -/
theorem c1_response_time_witness :
    (handleQuizAnswer exAnswering exAnsOverride).quizStatistics =
      some { exStats100 with answers := [⟨"A", some 0, true, 150, 200, 0⟩] } := by
  rw [c1_response_time exAnswering exQuiz exStats100 exAnsOverride rfl rfl]
  decide

/-- Claim C1 counterexample: with quiz start 100, peer override 50 and answer
timestamp 200, the code records `200 - 50 = 150`, while
`ans.timestamp - max(quiz.startTime, override) = 200 - 100 = 100`. -/
theorem c1_claim_counterexample :
    ((handleQuizAnswer exAnswering exAnsOverride).quizStatistics.map
        (fun st => st.answers.map (fun r => r.responseTime))) = some [150] ∧
    (200 : Int) - max 100 50 = 100 ∧ (150 : Int) ≠ 100 := by
  refine ⟨by decide, by decide, by decide⟩

/-- Claim C4: a `doubt_submission` received while the window is inactive is
rejected — `collected` (and the window state) is untouched; while the window
is active the `{text, timestamp || now}` entry is appended. -/
theorem c4_submission_gate (s : OpState) (d : DoubtFrame) (now : Int) :
    (s.isDoubtActive = false →
      (handleDoubtSubmission s d now).doubtCollection = s.doubtCollection ∧
      (handleDoubtSubmission s d now).isDoubtActive = false ∧
      (handleDoubtSubmission s d now).doubtCollectionTimeout = s.doubtCollectionTimeout) ∧
    (s.isDoubtActive = true →
      (handleDoubtSubmission s d now).doubtCollection =
        s.doubtCollection ++ [⟨d.text, jsOrInt d.timestamp now⟩]) := by
  constructor <;> intro h <;> simp [handleDoubtSubmission, h, addMsg]

/-- Claim C4 witness: a submission to the inactive initial state leaves the
collection empty; the same submission to an active window appends it. -/
theorem c4_submission_gate_witness :
    (handleDoubtSubmission initOp ⟨"why", some 5⟩ 9).doubtCollection = [] ∧
    (handleDoubtSubmission { initOp with isDoubtActive := true }
        ⟨"why", some 5⟩ 9).doubtCollection = [⟨"why", 5⟩] := by
  constructor
  · exact ((c4_submission_gate initOp ⟨"why", some 5⟩ 9).1 rfl).1
  · have h := (c4_submission_gate { initOp with isDoubtActive := true } ⟨"why", some 5⟩ 9).2 rfl
    rw [h]
    decide

/-- Claim C7: for an answer to an active quiz, `isCorrect` is the strict
equality with `currentQuiz.correct`; exactly one `quiz_feedback` frame is
sent carrying that boolean, whose message on success is the plain
acknowledgement and on failure spells the correct letter (`A`–`D` when
`correct` is in `0..3`) followed by the correct option's text. -/
theorem c7_feedback (s : OpState) (q : Quiz) (st : QuizStats) (ans : AnswerFrame)
    (hq : s.currentQuiz = some q) (hst : s.quizStatistics = some st)
    (h0 : 0 ≤ q.correct) (h4 : q.correct < 4) (hlen : q.options.length = 4) :
    (handleQuizAnswer s ans).sent =
      s.sent ++ [OutFrame.quizFeedback (decide (ans.answerIndex = some q.correct))
        (feedbackMessage q (decide (ans.answerIndex = some q.correct)))] ∧
    feedbackMessage q true = "Correct answer!" ∧
    feedbackMessage q false =
      "Wrong answer. The correct answer is "
        ++ String.singleton (jsFromCharCode (65 + q.correct)) ++ ". "
        ++ jsIndexGetD q.options q.correct ∧
    jsFromCharCode (65 + q.correct) ∈ (['A', 'B', 'C', 'D'] : List Char) ∧
    jsIndexGetD q.options q.correct ∈ q.options := by
  refine ⟨?_, rfl, rfl, ?_, ?_⟩
  · simp [handleQuizAnswer, hq, hst, addMsg]
  · rcases q with ⟨qq, qo, qc, qs⟩
    simp only at h0 h4 ⊢
    interval_cases qc <;> decide
  · have hpos : q.correct.toNat < q.options.length := by
      rw [hlen]
      omega
    rw [jsIndexGetD, if_pos h0, List.getD_eq_getElem q.options "undefined" hpos]
    exact List.getElem_mem hpos

/-- Claim C7 witness: answering `B` (index 1) against `exQuiz` (correct
index 0) yields a wrong-answer feedback naming letter `A` and text `o1`. -/
theorem c7_feedback_witness :
    (handleQuizAnswer exAnswering
        { exAnsOverride with answerIndex := some 1, answer := "B" }).sent =
      [OutFrame.quizFeedback false
        "Wrong answer. The correct answer is A. o1"] := by
  have h := (c7_feedback exAnswering exQuiz exStats100
      { exAnsOverride with answerIndex := some 1, answer := "B" }
      rfl rfl (by decide) (by decide) (by decide)).1
  rw [h]
  decide

/-- Claim C9, amended: on a peer disconnect, only the socket reference is
cleared and the status becomes `Disconnected` — quiz state, its answer list
and the doubt window are untouched; a transport error by itself only logs a
message (the socket and the status are NOT touched by the error handler);
while the socket is cleared every send fails and delivers nothing, and after
a reconnect sends succeed again. -/
theorem c9_transport (s : OpState) (f : OutFrame) (c : Conn) (emsg : String)
    (hopen : c.isOpen = true) :
    (handleClose s).client = none ∧
    (handleClose s).status = "Disconnected" ∧
    (handleClose s).currentQuiz = s.currentQuiz ∧
    (handleClose s).quizStatistics = s.quizStatistics ∧
    (handleClose s).isDoubtActive = s.isDoubtActive ∧
    (handleClose s).doubtCollection = s.doubtCollection ∧
    (handleClose s).topDoubts = s.topDoubts ∧
    (handleClose s).doubtCollectionTimeout = s.doubtCollectionTimeout ∧
    (sendFrame (handleClose s) f).1 = false ∧
    (sendFrame (handleClose s) f).2.sent = s.sent ∧
    ((handleError s emsg).client = s.client ∧
     (handleError s emsg).status = s.status ∧
     (handleError s emsg).currentQuiz = s.currentQuiz ∧
     (handleError s emsg).quizStatistics = s.quizStatistics ∧
     (handleError s emsg).isDoubtActive = s.isDoubtActive ∧
     (handleError s emsg).doubtCollection = s.doubtCollection) ∧
    (sendFrame (handleConnection (handleClose s) c) f).1 = true ∧
    (sendFrame (handleConnection (handleClose s) c) f).2.sent = s.sent ++ [f] := by
  simp [handleClose, handleConnection, handleError, sendFrame, addMsg, hopen]

/-- Claim C9 witness: disconnect from the connected fixture, a failed send
while down, a successful send after reconnecting. -/
theorem c9_transport_witness :
    (handleClose exConnected).client = none ∧
    (sendFrame (handleClose exConnected) (OutFrame.chat "hi")).1 = false ∧
    (sendFrame (handleConnection (handleClose exConnected) ⟨true⟩)
        (OutFrame.chat "hi")).1 = true := by
  have h := c9_transport exConnected (OutFrame.chat "hi") ⟨true⟩ "boom" rfl
  exact ⟨h.1, h.2.2.2.2.2.2.2.2.1, h.2.2.2.2.2.2.2.2.2.2.2.1⟩

/-- Claim C9 counterexample: a transport error while connected does NOT clear
the socket reference and does NOT transition the status — the error handler
only logs, contradicting the claim for the error case. -/
theorem c9_claim_counterexample :
    (handleError exConnected "fail").client = some ⟨true⟩ ∧
    (handleError exConnected "fail").status = "Connected" := by
  constructor <;> rfl

/-- Claim C10: the educator appends a record for every `quiz_answer` frame
received while a quiz is active — a repeated identical frame yields a second
record (no server-side duplicate rejection); on the learner side, an answer
is sent whenever `answerFeedback` is still null and is suppressed locally
exactly once feedback has been stored by `setAnswerFeedback`. -/
theorem c10_duplicate_answers (s : OpState) (q : Quiz) (st : QuizStats) (ans : AnswerFrame)
    (cs : ClState) (qz : Quiz) (c : Conn) (now : Int)
    (hq : s.currentQuiz = some q) (hst : s.quizStatistics = some st)
    (hcq : cs.currentQuiz = some qz) (hws : cs.ws = some c) (hopen : c.isOpen = true) :
    ((handleQuizAnswer s ans).quizStatistics.map (fun st1 => st1.answers.length) =
      some (st.answers.length + 1)) ∧
    ((handleQuizAnswer (handleQuizAnswer s ans) ans).quizStatistics.map
        (fun st1 => st1.answers.length) = some (st.answers.length + 2)) ∧
    (cs.answerFeedback = none →
      (clientAnswerLine cs "A" now).sentFrames.length = cs.sentFrames.length + 1) ∧
    (∀ fb : Feedback,
      (clientAnswerLine (clientFeedbackArrived cs fb) "A" now).sentFrames = cs.sentFrames) := by
  refine ⟨?_, ?_, ?_, ?_⟩
  · simp [handleQuizAnswer, hq, hst, addMsg]
  · simp [handleQuizAnswer, hq, hst, addMsg]
  · intro hfb
    simp [clientAnswerLine, hcq, hws, hopen, hfb]
  · intro fb
    simp [clientAnswerLine, clientFeedbackArrived, hcq]

/-- Claim C10 witness: the same frame handled twice on `exAnswering` yields
two records; the client sends when feedback is null and suppresses after
feedback arrived. -/
theorem c10_duplicate_answers_witness :
    ((handleQuizAnswer (handleQuizAnswer exAnswering exAnsOverride)
        exAnsOverride).quizStatistics.map (fun st1 => st1.answers.length) = some 2) ∧
    (clientAnswerLine initCl "A" 7).sentFrames.length = 1 ∧
    (clientAnswerLine (clientFeedbackArrived initCl ⟨true, "Correct answer!"⟩)
        "A" 7).sentFrames = [] := by
  have h := c10_duplicate_answers exAnswering exQuiz exStats100 exAnsOverride
      initCl exQuiz ⟨true⟩ 7 rfl rfl rfl rfl rfl
  exact ⟨h.2.1, h.2.2.1 rfl, h.2.2.2 ⟨true, "Correct answer!"⟩⟩

/-- Claim C3, amended: the inbound-frame decoder is total and never throws;
a frame whose `JSON.parse` fails — and likewise a frame parsing to `null`,
whose `.type` access raises a TypeError into the same catch — produces a
legacy plain-text message carrying exactly the raw frame text; but a
well-formed JSON frame without a recognized `type` falls through the
dispatch chain and is silently dropped, producing no legacy message. -/
theorem c3_decode_fallback (raw : String) :
    clientDecode raw none = RxAction.legacy raw ∧
    clientDecode raw (some JsValue.null) = RxAction.legacy raw ∧
    (∀ fields, lookupLast fields "type" = none →
        clientDecode raw (some (JsValue.obj fields)) = RxAction.ignored) ∧
    (∀ q : ℚ, clientDecode raw (some (JsValue.num q)) = RxAction.ignored) ∧
    (∀ t : String, clientDecode raw (some (JsValue.str t)) = RxAction.ignored) ∧
    (∀ fields t, lookupLast fields "type" = some (JsValue.str t) →
        t ≠ "message" → t ≠ "quiz" →
        clientDecode raw (some (JsValue.obj fields)) = RxAction.ignored) := by
  refine ⟨rfl, rfl, ?_, fun q => rfl, fun t => rfl, ?_⟩
  · intro fields hf
    simp [clientDecode, getField, hf, jsStrictEqStr]
  · intro fields t hf hm hq
    simp [clientDecode, getField, hf, jsStrictEqStr, hm, hq]

/-- Claim C3 witness: a non-JSON frame falls back to legacy text verbatim,
and the object `\x7b"x":1\x7d` (no `type`) is dropped. -/
theorem c3_decode_fallback_witness :
    clientDecode "plain text" none = RxAction.legacy "plain text" ∧
    clientDecode "\x7b\"x\":1\x7d" (some (JsValue.obj [("x", JsValue.num 1)])) =
      RxAction.ignored := by
  refine ⟨(c3_decode_fallback "plain text").1, ?_⟩
  exact (c3_decode_fallback "\x7b\"x\":1\x7d").2.2.1 [("x", JsValue.num 1)] rfl

/-- Claim C3 counterexample: the frame `\x7b"x":1\x7d` parses as JSON but has
no `type`, and the handler drops it instead of yielding the legacy message
the claim requires. -/
theorem c3_claim_counterexample :
    clientDecode "\x7b\"x\":1\x7d" (some (JsValue.obj [("x", JsValue.num 1)])) =
      RxAction.ignored ∧
    RxAction.ignored ≠ RxAction.legacy "\x7b\"x\":1\x7d" := by
  constructor
  · rfl
  · intro h
    exact RxAction.noConfusion h

/-- Claim C2, amended: after `openWindow()` and three `submit()` calls,
`forceProcess()` cancels the pending debounce timer, deactivates the window
and hands exactly the three collected submissions (and no others) to
processing, and no late timer expiry can fire afterwards; but with zero
collected items `forceProcess()` does NOT proceed to `flush()` — it returns
early with a notice, leaving the window active and the timer armed. -/
theorem c2_force_process (s0 : OpState) (c : Conn) (o o2 : SummarizerOutcome)
    (d1 d2 d3 : DoubtFrame) (n1 n2 n3 : Int)
    (hc : s0.client = some c) (hopen : c.isOpen = true) :
    (forceProcess (handleDoubtSubmission (handleDoubtSubmission
        (handleDoubtSubmission (openDoubtWindow s0) d1 n1) d2 n2) d3 n3) o).processedBatches =
      s0.processedBatches ++
        [[⟨d1.text, jsOrInt d1.timestamp n1⟩, ⟨d2.text, jsOrInt d2.timestamp n2⟩,
          ⟨d3.text, jsOrInt d3.timestamp n3⟩]] ∧
    (forceProcess (handleDoubtSubmission (handleDoubtSubmission
        (handleDoubtSubmission (openDoubtWindow s0) d1 n1) d2 n2) d3 n3) o).topDoubts =
      some (processDoubtsResult
        [⟨d1.text, jsOrInt d1.timestamp n1⟩, ⟨d2.text, jsOrInt d2.timestamp n2⟩,
         ⟨d3.text, jsOrInt d3.timestamp n3⟩] o) ∧
    (forceProcess (handleDoubtSubmission (handleDoubtSubmission
        (handleDoubtSubmission (openDoubtWindow s0) d1 n1) d2 n2) d3 n3) o).isDoubtActive =
      false ∧
    (forceProcess (handleDoubtSubmission (handleDoubtSubmission
        (handleDoubtSubmission (openDoubtWindow s0) d1 n1) d2 n2) d3 n3)
        o).doubtCollectionTimeout = none ∧
    fireTimer (forceProcess (handleDoubtSubmission (handleDoubtSubmission
        (handleDoubtSubmission (openDoubtWindow s0) d1 n1) d2 n2) d3 n3) o) o2 =
      forceProcess (handleDoubtSubmission (handleDoubtSubmission
        (handleDoubtSubmission (openDoubtWindow s0) d1 n1) d2 n2) d3 n3) o := by
  simp [openDoubtWindow, handleDoubtSubmission, forceProcess, processAndDisplayDoubts,
        fireTimer, addMsg, hc, hopen]

/-- Claim C2 witness: open, three submissions, force-process — exactly those
three doubts are flushed, the window deactivates, and a later timer event is
a no-op. -/
theorem c2_force_process_witness :
    (forceProcess (handleDoubtSubmission (handleDoubtSubmission
        (handleDoubtSubmission (openDoubtWindow exConnected) ⟨"a", some 1⟩ 1)
        ⟨"b", some 2⟩ 2) ⟨"c", some 3⟩ 3)
      SummarizerOutcome.cliExecError).processedBatches =
      [[⟨"a", 1⟩, ⟨"b", 2⟩, ⟨"c", 3⟩]] := by
  have h := (c2_force_process exConnected ⟨true⟩ SummarizerOutcome.cliExecError
      SummarizerOutcome.cliExecError ⟨"a", some 1⟩ ⟨"b", some 2⟩ ⟨"c", some 3⟩
      1 2 3 rfl rfl).1
  rw [h]
  decide

/-- Claim C2 counterexample: with the window just opened and zero items
collected, `/process` does not flush — the window stays active, the timer
stays armed and nothing is processed, contrary to the claimed
`flush()`-that-clears-`active`. -/
theorem c2_claim_counterexample :
    (forceProcess (openDoubtWindow exConnected)
        SummarizerOutcome.cliExecError).isDoubtActive = true ∧
    (forceProcess (openDoubtWindow exConnected)
        SummarizerOutcome.cliExecError).doubtCollectionTimeout =
      some TimerKind.openTimer ∧
    (forceProcess (openDoubtWindow exConnected)
        SummarizerOutcome.cliExecError).processedBatches = [] := by
  refine ⟨by decide, by decide, by decide⟩

/-- Claim C6: whenever the external Summarizer fails (no parsable JSON,
child-process error, parse exception, empty parse), `processDoubts` resolves
with the deterministic local fallback, which buckets the doubts by their
lowercase 30-character prefix, counts each bucket, orders buckets by
descending count and reports at most the top 3 as `{summary, count, details}`
entries: each reported count is exactly the bucket's multiplicity, each
`details` is a collected text whose bucket it represents, each `summary` is
its 50-character truncation, and no unreported bucket outranks a reported
one. -/
theorem c6_fallback_algorithm (doubts : List Doubt) :
    (∀ o : SummarizerOutcome, o.isFailure = true →
        processDoubtsResult doubts o = createFallbackDoubts doubts) ∧
    (createFallbackDoubts doubts).length = min 3 (groupDoubts doubts).length ∧
    (createFallbackDoubts doubts).Pairwise (fun a b => b.count ≤ a.count) ∧
    (∀ e ∈ createFallbackDoubts doubts,
        e.summary = jsTruncate50 e.details ∧
        e.count = bucketCountIn doubts (fallbackKey e.details) ∧
        ∃ d ∈ doubts, e.details = d.text) ∧
    (∀ d ∈ doubts, (∀ e ∈ createFallbackDoubts doubts,
          fallbackKey e.details ≠ fallbackKey d.text) →
        ∀ e ∈ createFallbackDoubts doubts,
          bucketCountIn doubts (fallbackKey d.text) ≤ e.count) := by
  obtain ⟨h1, h2, h3⟩ := groupedInv_groupDoubts doubts
  haveI : IsTotal GroupEntry (fun a b => b.count ≤ a.count) :=
    ⟨fun a b => Nat.le_total b.count a.count⟩
  haveI : IsTrans GroupEntry (fun a b => b.count ≤ a.count) :=
    ⟨fun a b c hab hbc => le_trans hbc hab⟩
  have hperm := List.perm_insertionSort (fun a b : GroupEntry => b.count ≤ a.count)
    ((groupDoubts doubts).map Prod.snd)
  have hpair := List.sorted_insertionSort (fun a b : GroupEntry => b.count ≤ a.count)
    ((groupDoubts doubts).map Prod.snd)
  refine ⟨?_, ?_, ?_, ?_, ?_⟩
  · intro o ho
    cases o
    case success s => simp [SummarizerOutcome.isFailure] at ho
    all_goals
      simp only [processDoubtsResult, createFallbackDoubts]
      by_cases he : doubts.isEmpty <;> simp [he]
  · by_cases hne : doubts.isEmpty
    · have hd : doubts = [] := List.isEmpty_iff.mp hne
      subst hd
      simp [createFallbackDoubts, groupDoubts]
    · simp only [createFallbackDoubts, hne, Bool.false_eq_true, if_false]
      rw [List.length_map, List.length_take, sortedBuckets, hperm.length_eq, List.length_map]
  · by_cases hne : doubts.isEmpty
    · simp [createFallbackDoubts, hne]
    · simp only [createFallbackDoubts, hne, Bool.false_eq_true, if_false]
      rw [List.pairwise_map]
      exact List.Pairwise.take hpair
  · intro e he
    by_cases hne : doubts.isEmpty
    · simp [createFallbackDoubts, hne] at he
    · rw [createFallbackDoubts, if_neg (by simpa using hne), List.mem_map] at he
      obtain ⟨v, hv, rfl⟩ := he
      have hvs : v ∈ sortedBuckets doubts := List.take_subset 3 _ hv
      have hvv : v ∈ (groupDoubts doubts).map Prod.snd := hperm.mem_iff.mp hvs
      rw [List.mem_map] at hvv
      obtain ⟨p, hp, hpv⟩ := hvv
      obtain ⟨hk1, hk2, hk3⟩ := h1 p hp
      refine ⟨rfl, ?_, ?_⟩
      · show v.count = bucketCountIn doubts (fallbackKey v.text)
        rw [← hpv, ← hk1]
        exact hk2
      · show ∃ d ∈ doubts, v.text = d.text
        rw [← hpv]
        exact hk3
  · intro d hd hnot e he
    by_cases hne : doubts.isEmpty
    · rw [List.isEmpty_iff.mp hne] at hd
      exact absurd hd (List.not_mem_nil d)
    · obtain ⟨p, hp, hpk⟩ := h2 d hd
      obtain ⟨hk1, hk2, hk3⟩ := h1 p hp
      have hvv : p.2 ∈ (groupDoubts doubts).map Prod.snd := List.mem_map_of_mem _ hp
      have hvs : p.2 ∈ sortedBuckets doubts := hperm.mem_iff.mpr hvv
      have hnt : p.2 ∉ (sortedBuckets doubts).take 3 := by
        intro hc
        apply hnot (mkFallbackEntry p.2)
          (by rw [createFallbackDoubts, if_neg (by simpa using hne)]
              exact List.mem_map_of_mem _ hc)
        show fallbackKey p.2.text = fallbackKey d.text
        rw [← hk1, hpk]
      have hvs' := hvs
      rw [← List.take_append_drop 3 (sortedBuckets doubts)] at hvs'
      rcases List.mem_append.mp hvs' with hin | hdrop
      · exact absurd hin hnt
      · have hpair' := hpair
        rw [show List.insertionSort (fun a b : GroupEntry => b.count ≤ a.count)
              ((groupDoubts doubts).map Prod.snd) = sortedBuckets doubts from rfl,
            ← List.take_append_drop 3 (sortedBuckets doubts)] at hpair'
        obtain ⟨-, -, hcross⟩ := List.pairwise_append.mp hpair'
        rw [createFallbackDoubts, if_neg (by simpa using hne), List.mem_map] at he
        obtain ⟨w, hw, rfl⟩ := he
        have hc := hcross w hw p.2 hdrop
        show bucketCountIn doubts (fallbackKey d.text) ≤ w.count
        rw [← hpk, ← hk2]
        exact hc

set_option maxRecDepth 10000 in
/-- Claim C6 witness: with the command-line call failing, `processDoubts`
resolves to the local fallback; on `exDoubts` the top bucket holds both
gravity doubts (count 2) and the excluded fourth bucket never outranks a
reported one. -/
theorem c6_fallback_algorithm_witness :
    processDoubtsResult exDoubts SummarizerOutcome.cliExecError =
      createFallbackDoubts exDoubts ∧
    (⟨"How does gravity work exactly in orbit", 2,
        "How does gravity work exactly in orbit"⟩ : DoubtSummary).count =
      bucketCountIn exDoubts (fallbackKey "How does gravity work exactly in orbit") ∧
    bucketCountIn exDoubts (fallbackKey "Can light escape a black hole") ≤
      (⟨"How does gravity work exactly in orbit", 2,
        "How does gravity work exactly in orbit"⟩ : DoubtSummary).count := by
  refine ⟨(c6_fallback_algorithm exDoubts).1 SummarizerOutcome.cliExecError rfl, ?_, ?_⟩
  · exact ((c6_fallback_algorithm exDoubts).2.2.2.1 _ (by decide)).2.1
  · exact (c6_fallback_algorithm exDoubts).2.2.2.2 ⟨"Can light escape a black hole", 5⟩
      (by decide) (by decide) _ (by decide)

end BerrySahayak
